import Mathlib

/-!
Verification of the Posts-resource backend of a MERN blogging service.

The development shallowly embeds the JavaScript source:

* `server/src/utils/helpers.js` — `generateSlug` (pure string function);
* `server/src/utils/auth.js` — `verifyToken` (token wrapper);
* `server/src/middleware/auth.js` — the authentication gate;
* `server/src/middleware/errorHandler.js` — the error normalizer;
* `server/src/controllers/postsController.js` — the CRUD handlers,
  together with the `Post` schema of `server/src/models/Post.js`.

JavaScript strings are modelled as `List Char`; regular-expression
character classes (`\w`, `\s`) and `toLowerCase` are modelled over the
ASCII fragment, which covers the behaviour the properties below are
about.  The document store is modelled as a list of posts addressed by
identifier strings; `populate` (expansion of the author reference for
read responses) and the store's unique index on `slug` are not
modelled, as no property below depends on them.
-/

namespace MernBlog

/-- JavaScript strings, modelled as lists of characters. -/
abbrev Str := List Char

/-- Embed a Lean string literal as a `Str`. -/
def str (s : String) : Str := s.data

/-! ## Character classes (ASCII fragment of the JS regex classes) -/

/-- An ASCII upper-case letter, `A`–`Z`. -/
def isAsciiUpper (c : Char) : Bool := 65 ≤ c.toNat && c.toNat ≤ 90

/-- An ASCII lower-case letter, `a`–`z`. -/
def isAsciiLower (c : Char) : Bool := 97 ≤ c.toNat && c.toNat ≤ 122

/-- An ASCII digit, `0`–`9`. -/
def isDigitCh (c : Char) : Bool := 48 ≤ c.toNat && c.toNat ≤ 57

/-- The JS regex class `\w`: letters, digits and underscore (ASCII). -/
def isWordChar (c : Char) : Bool :=
  isAsciiLower c || isAsciiUpper c || isDigitCh c || c = '_'

/-- The JS regex class `\s`, ASCII fragment: space, tab, newline,
carriage return, vertical tab, form feed. -/
def jsIsSpace (c : Char) : Bool :=
  c.toNat = 32 || c.toNat = 9 || c.toNat = 10 ||
  c.toNat = 13 || c.toNat = 11 || c.toNat = 12

/-- `String.prototype.toLowerCase`, ASCII fragment: maps `A`–`Z` to
`a`–`z` and leaves every other character unchanged (this is exactly
`Char.toLower`). -/
def jsToLower (c : Char) : Char := c.toLower

/-- `String.prototype.trim`: drop leading and trailing whitespace. -/
def jsTrim (l : Str) : Str :=
  ((l.dropWhile jsIsSpace).reverse.dropWhile jsIsSpace).reverse

/-- Replace every maximal run of characters satisfying `p` by the single
character `r`, as the regex replacement `/p+/g → r` does.  The Boolean
argument records whether the previous character was inside a run. -/
def collapseRuns (p : Char → Bool) (r : Char) : Bool → Str → Str
  | _, [] => []
  | inRun, c :: cs =>
    if p c then
      if inRun then collapseRuns p r true cs
      else r :: collapseRuns p r true cs
    else c :: collapseRuns p r false cs

/-- The transformation chain of `generateSlug` (helpers.js lines 8–14),
also duplicated verbatim in the `pre('save')` hook of `Post.js`:
lower-case, trim, strip characters outside `[\w\s-]`, replace
whitespace runs by single hyphens, collapse hyphen runs. -/
def slugChain (l : Str) : Str :=
  collapseRuns (fun c => c = '-') '-' false
    (collapseRuns jsIsSpace '-' false
      ((jsTrim (l.map jsToLower)).filter
        (fun c => isWordChar c || jsIsSpace c || c = '-')))

/-- `generateSlug` from `server/src/utils/helpers.js`: falsy (empty)
input returns the empty string, otherwise the transformation chain. -/
def generateSlug (l : Str) : Str := if l = [] then [] else slugChain l

/-! ## Character sets appearing in the slug properties -/

/-- A character of the set `[a-z0-9_-]` — what `generateSlug` actually
produces. -/
def isSlugChar (c : Char) : Bool :=
  isAsciiLower c || isDigitCh c || c = '_' || c = '-'

/-- A character of the set `[a-z0-9-]` — the set the specification
claims for slugs (underscore excluded). -/
def isSpecSlugChar (c : Char) : Bool :=
  isAsciiLower c || isDigitCh c || c = '-'

/-- No two adjacent characters of the string both satisfy `p`. -/
def noAdjacent (p : Char → Bool) : Str → Bool
  | [] => true
  | [_] => true
  | a :: b :: rest => !(p a && p b) && noAdjacent p (b :: rest)

/-- No two consecutive hyphens. -/
def noDoubleHyphen (l : Str) : Bool := noAdjacent (fun c => c = '-') l

/-- The per-input slug property exactly as the specification states it:
lower-case output over `[a-z0-9-]` only, with no leading, trailing or
doubled hyphen. -/
def slugSpecClaim (l : Str) : Bool :=
  (generateSlug l).all isSpecSlugChar &&
  noDoubleHyphen (generateSlug l) &&
  ((generateSlug l).head? ≠ some '-') &&
  ((generateSlug l).getLast? ≠ some '-')

example : generateSlug (str "Hello! This is a @Test#") = str "hello-this-is-a-test" := by decide
example : generateSlug (str "My Awesome Blog Post") = str "my-awesome-blog-post" := by decide
example : generateSlug (str "Too    Many     Spaces") = str "too-many-spaces" := by decide
example : generateSlug (str "") = str "" := by decide
example : generateSlug (str "_-a-") = str "_-a-" := by decide

/-! ## Data model: the `Post` document (`server/src/models/Post.js`)

A stored post.  `id` is the store-assigned identifier (a 24-hex-digit
ObjectId string), `author` the creating user's identifier string,
`category` an optional opaque reference.  `status` is kept as a string
(`"draft"` or `"published"` — the schema enum); `views` is a number
defaulting to `0`. -/
structure Post where
  id : Str
  title : Str
  content : Str
  slug : Str
  author : Str
  category : Option Str
  status : Str
  views : Int
deriving DecidableEq, Repr

/-- `mongoose.Types.ObjectId.isValid`: a 24-character hex string (or a
12-character string, interpreted as raw bytes). -/
def isValidObjectId (s : Str) : Bool :=
  (s.length = 24 && s.all (fun c => isDigitCh c ||
    (97 ≤ c.toNat && c.toNat ≤ 102) || (65 ≤ c.toNat && c.toNat ≤ 70))) ||
  s.length = 12

/-- `Post.findById`: the first post in the store with the given id
(ids are unique in any store the API builds). -/
def findPost : List Post → Str → Option Post
  | [], _ => none
  | p :: ps, i => if p.id = i then some p else findPost ps i

/-- `findByIdAndUpdate`'s write-back: replace the post with the given
id by the updated document. -/
def replacePost : List Post → Str → Post → List Post
  | [], _, _ => []
  | p :: ps, i, q => if p.id = i then q :: ps else p :: replacePost ps i q

/-- `findByIdAndDelete`: remove the post with the given id. -/
def removePost : List Post → Str → List Post
  | [], _ => []
  | p :: ps, i => if p.id = i then ps else p :: removePost ps i

/-- `Array.prototype.join(sep)` on a list of strings. -/
def joinSep (sep : Str) : List Str → Str
  | [] => []
  | [m] => m
  | m :: ms => m ++ sep ++ joinSep sep ms

/-- JS truthiness of an optional string field: absent or empty is
falsy. -/
def jsFalsyStr : Option Str → Bool
  | none => true
  | some [] => true
  | some (_ :: _) => false

/-! ## HTTP layer -/

/-- The JSON responses the posts controller can send. -/
inductive HttpResult where
  /-- `res.status(s).json(\x7b error: msg \x7d)` -/
  | err (status : Nat) (msg : Str)
  /-- `res.status(s).json(post)` -/
  | okPost (status : Nat) (p : Post)
  /-- `res.status(s).json(\x7b message: msg \x7d)` -/
  | okMsg (status : Nat) (msg : Str)
deriving DecidableEq, Repr

/-- The HTTP status of a controller response. -/
def HttpResult.status : HttpResult → Nat
  | .err s _ => s
  | .okPost s _ => s
  | .okMsg s _ => s

/-! ## Request bodies

`req.body` is free-form JSON; the fields a client may send that touch
the Post schema are enumerated, each optional (`none` = absent).  The
controllers read only some of them. -/

/-- A create-request payload. -/
structure CreateBody where
  title : Option Str := none
  content : Option Str := none
  category : Option Str := none
  slug : Option Str := none
  status : Option Str := none
  views : Option Int := none
  author : Option Str := none
deriving DecidableEq, Repr

/-- An update-request payload. -/
structure UpdateBody where
  title : Option Str := none
  content : Option Str := none
  category : Option Str := none
  slug : Option Str := none
  status : Option Str := none
  views : Option Int := none
  author : Option Str := none
deriving DecidableEq, Repr

/-! ## Schema validation (`Post.js`)

Mongoose validators on the paths being written: `title` is trimmed by
its setter, then checked non-empty (required) and at most 200
characters; `content` is checked non-empty; `status` must be in the
enum.  `slug` has a lowercasing setter.  Casting of `category`/`views`
is not modelled (no property below depends on it). -/

/-- Validation messages for a (trimmed) title being written. -/
def titleMsgs (t : Str) : List Str :=
  (if t = [] then [str "Title is required"] else []) ++
  (if 200 < t.length then [str "Title cannot exceed 200 characters"] else [])

/-- Validation messages for a content value being written. -/
def contentMsgs (c : Str) : List Str :=
  if c = [] then [str "Content is required"] else []

/-- Validation messages for a status value being written. -/
def statusMsgs (s : Str) : List Str :=
  if s = str "draft" || s = str "published" then []
  else [str "Invalid status value"]

/-- `Post.create` (schema application, validation, the `pre('save')`
slug hook, and insertion).  `freshId` is the identifier the store
assigns to the new document.  On validation failure the list of
constraint messages is returned (mongoose's `ValidationError`). -/
def postCreate (store : List Post) (freshId title content : Str)
    (category : Option Str) (author : Str) :
    Except (List Str) (Post × List Post) :=
  let t := jsTrim title
  let msgs := titleMsgs t ++ contentMsgs content
  if msgs ≠ [] then .error msgs
  else
    let slug := if t ≠ [] then slugChain t else []
    let p : Post :=
      { id := freshId, title := t, content := content, slug := slug,
        author := author, category := category,
        status := str "draft", views := 0 }
    .ok (p, store ++ [p])

/-- The `$set` merge `findByIdAndUpdate` performs: every present body
field overwrites the stored one (title trimmed and slug lowercased by
their setters). -/
def applyUpdate (p : Post) (b : UpdateBody) : Post :=
  { p with
    title := match b.title with | some t => jsTrim t | none => p.title
    content := b.content.getD p.content
    category := match b.category with | some c => some c | none => p.category
    slug := match b.slug with | some s => s.map jsToLower | none => p.slug
    status := b.status.getD p.status
    views := b.views.getD p.views
    author := b.author.getD p.author }

/-- Validation messages `runValidators` produces for the paths an
update writes. -/
def updateMsgs (b : UpdateBody) : List Str :=
  (match b.title with | some t => titleMsgs (jsTrim t) | none => []) ++
  (match b.content with | some c => contentMsgs c | none => []) ++
  (match b.status with | some s => statusMsgs s | none => [])

/-! ## Posts controller (`server/src/controllers/postsController.js`) -/

/-- `getPostById`: ObjectId syntax check (400), lookup (404), else the
post with status 200.  Reading is side-effect free, so only the
response is returned. -/
def getPostById (store : List Post) (idStr : Str) : HttpResult :=
  if !isValidObjectId idStr then .err 400 (str "Invalid post ID format")
  else
    match findPost store idStr with
    | none => .err 404 (str "Post not found")
    | some p => .okPost 200 p

/-- `createPost`: destructures only `title`, `content`, `category` from
the body, rejects falsy title/content with 400, then calls
`Post.create` with `author` forced to `req.user.id`.  A
`ValidationError` becomes a 400 with the joined messages. -/
def createPost (store : List Post) (user freshId : Str) (b : CreateBody) :
    HttpResult × List Post :=
  if jsFalsyStr b.title then (.err 400 (str "Title is required"), store)
  else if jsFalsyStr b.content then (.err 400 (str "Content is required"), store)
  else
    match postCreate store freshId (b.title.getD []) (b.content.getD [])
      b.category user with
    | .ok (p, store') => (.okPost 201 p, store')
    | .error msgs =>
      (.err 400 (str "Validation failed: " ++ joinSep (str ", ") msgs), store)

/-- `updatePost`: ObjectId syntax check (400), lookup (404), ownership
check (403), then `delete req.body.author` and
`findByIdAndUpdate(id, req.body, \x7b new: true, runValidators: true \x7d)`;
a `ValidationError` becomes a 400. -/
def updatePost (store : List Post) (idStr user : Str) (b : UpdateBody) :
    HttpResult × List Post :=
  if !isValidObjectId idStr then (.err 400 (str "Invalid post ID format"), store)
  else
    match findPost store idStr with
    | none => (.err 404 (str "Post not found"), store)
    | some p =>
      if p.author ≠ user then
        (.err 403 (str "Not authorized to update this post"), store)
      else
        let b' := { b with author := none }
        match updateMsgs b' with
        | [] =>
          let p' := applyUpdate p b'
          (.okPost 200 p', replacePost store idStr p')
        | msgs =>
          (.err 400 (str "Validation failed: " ++ joinSep (str ", ") msgs), store)

/-- `deletePost`: ObjectId syntax check (400), lookup (404), ownership
check (403), then `findByIdAndDelete`. -/
def deletePost (store : List Post) (idStr user : Str) :
    HttpResult × List Post :=
  if !isValidObjectId idStr then (.err 400 (str "Invalid post ID format"), store)
  else
    match findPost store idStr with
    | none => (.err 404 (str "Post not found"), store)
    | some p =>
      if p.author ≠ user then
        (.err 403 (str "Not authorized to delete this post"), store)
      else
        (.okMsg 200 (str "Post deleted successfully"), removePost store idStr)

/-! ## Error normalizer (`server/src/middleware/errorHandler.js`) -/

/-- The shape of a JS error reaching the handler: its `name`,
`message`, optional numeric `code`, optional `statusCode` (set by
`AppError`), the keys of `keyValue` (duplicate-key errors) and the
constraint messages of `errors` (validation errors). -/
structure JsError where
  name : Str
  message : Str
  code : Option Nat := none
  statusCode : Option Nat := none
  keyValueKeys : List Str := []
  errorMessages : List Str := []
deriving DecidableEq, Repr

/-- The normalized response: status, the constant `success: false`,
the `error` message, and whether development-mode detail fields were
attached. -/
structure ErrResponse where
  status : Nat
  success : Bool
  error : Str
  devDetails : Bool
deriving DecidableEq, Repr

/-- JS `x || d` on an optional number (`0` is falsy). -/
def jsOrNat (o : Option Nat) (d : Nat) : Nat :=
  match o with
  | some n => if n = 0 then d else n
  | none => d

/-- `errorHandler`: starts from the error's own `statusCode || 500` and
`message`, then reclassifies in source order — `CastError`,
`code === 11000`, `ValidationError`, `JsonWebTokenError`,
`TokenExpiredError` — a later matching branch overriding an earlier
one.  The body is always `\x7b success: false, error: message \x7d`,
with detail fields only in development mode. -/
def errorHandler (e : JsError) (isDev : Bool) : ErrResponse :=
  let s0 := (jsOrNat e.statusCode 500, e.message)
  let s1 := if e.name = str "CastError" then (404, str "Resource not found") else s0
  let s2 := if e.code = some 11000 then
      (400, e.keyValueKeys.headD (str "undefined") ++ str " already exists")
    else s1
  let s3 := if e.name = str "ValidationError" then
      (400, str "Validation failed: " ++ joinSep (str ", ") e.errorMessages)
    else s2
  let s4 := if e.name = str "JsonWebTokenError" then (401, str "Invalid token") else s3
  let s5 := if e.name = str "TokenExpiredError" then (401, str "Token expired") else s4
  { status := s5.1, success := false, error := s5.2, devDetails := isDev }

/-! ## Tokens and the authentication gate -/

/-- The payload `generateToken` signs: user id, username, email. -/
structure JwtPayload where
  id : Str
  username : Str
  email : Str
deriving DecidableEq, Repr

/-- The causes `jsonwebtoken`'s `verify` can fail with:
`TokenExpiredError`, a bad signature (`JsonWebTokenError`), or a
malformed token (`JsonWebTokenError`). -/
inductive JwtVerifyError where
  | expired
  | badSignature
  | malformed
deriving DecidableEq, Repr

/-- `verifyToken` from `server/src/utils/auth.js`: delegates to
`jwt.verify` (abstracted as `jv`) and catches every failure, rethrowing
the single error `'Invalid token'`. -/
def utilsVerifyToken (jv : Str → Except JwtVerifyError JwtPayload)
    (tok : Str) : Except Str JwtPayload :=
  match jv tok with
  | .ok p => .ok p
  | .error _ => .error (str "Invalid token")

/-- Whether `pat` is an initial segment of `s`
(`String.prototype.startsWith`). -/
def strHasStart : Str → Str → Bool
  | [], _ => true
  | _ :: _, [] => false
  | a :: as, b :: bs => a = b && strHasStart as bs

/-- `String.prototype.split(' ')`: split at every single space,
adjacent separators yielding empty fragments. -/
def splitOnSpace : Str → List Str
  | [] => [[]]
  | c :: cs =>
    match splitOnSpace cs with
    | [] => [[]]
    | g :: gs => if c = ' ' then [] :: g :: gs else (c :: g) :: gs

/-- The outcome of the authentication gate: a JSON 401, or the decoded
payload attached to `req.user` with control passed on. -/
inductive AuthOutcome where
  | denied (status : Nat) (msg : Str)
  | granted (user : JwtPayload)
deriving DecidableEq, Repr

/-- `verifyToken` from `server/src/middleware/auth.js`: requires an
`Authorization` header starting with `Bearer `, takes the second
space-separated fragment as the token, verifies it via `jwt.verify`
(abstracted as `jv`; a missing fragment is `jwt.verify(undefined)`,
which throws and is caught like any verification failure). -/
def verifyTokenGate (jv : Str → Except JwtVerifyError JwtPayload)
    (authHeader : Option Str) : AuthOutcome :=
  match authHeader with
  | none => .denied 401 (str "No token provided")
  | some h =>
    if !strHasStart (str "Bearer ") h then .denied 401 (str "No token provided")
    else
      match (splitOnSpace h)[1]? with
      | none => .denied 401 (str "Invalid or expired token")
      | some tok =>
        match jv tok with
        | .error _ => .denied 401 (str "Invalid or expired token")
        | .ok p => .granted p

/-! ## Concrete instances used to evaluate the model -/

/-- A well-formed ObjectId string. -/
def oid : Str := str "0123456789abcdef01234567"

/-- A concrete stored post owned by user `"u1"`. -/
def post0 : Post :=
  { id := oid, title := str "Test Post", content := str "body",
    slug := str "test-post", author := str "u1", category := none,
    status := str "draft", views := 0 }

/-- The post a successful create of title `"T"`, content `"C"` by
`"u1"` stores. -/
def createdT : Post :=
  { id := oid, title := str "T", content := str "C", slug := str "t",
    author := str "u1", category := none, status := str "draft",
    views := 0 }

/-- A concrete decoded token payload. -/
def payload0 : JwtPayload :=
  { id := str "u1", username := str "testuser",
    email := str "test@example.com" }

/-- A concrete behaviour of `jwt.verify`: one good token and one
failing token per failure cause. -/
def jvDemo : Str → Except JwtVerifyError JwtPayload := fun t =>
  if t = str "good" then .ok payload0
  else if t = str "expired" then .error .expired
  else if t = str "tampered" then .error .badSignature
  else .error .malformed

/-! ## Lemmas about the slug transformation chain -/

theorem charOfNat_toNat (n : Nat) (h : n.isValidChar) :
    (Char.ofNat n).toNat = n := by
  simp only [Char.ofNat, dif_pos h]
  simp [Char.ofNatAux, Char.toNat, UInt32.toNat, Nat.mod_eq_of_lt]

theorem isAsciiUpper_jsToLower (c : Char) :
    isAsciiUpper (jsToLower c) = false := by
  unfold jsToLower Char.toLower
  show isAsciiUpper
    (if c.toNat ≥ 65 ∧ c.toNat ≤ 90 then Char.ofNat (c.toNat + 32) else c) = false
  by_cases h : c.toNat ≥ 65 ∧ c.toNat ≤ 90
  · rw [if_pos h]
    have hv : (c.toNat + 32).isValidChar := Or.inl (by omega)
    have ht := charOfNat_toNat (c.toNat + 32) hv
    have h90 : ¬ ((Char.ofNat (c.toNat + 32)).toNat ≤ 90) := by rw [ht]; omega
    simp [isAsciiUpper, h90]
  · rw [if_neg h]
    simp only [isAsciiUpper, Bool.and_eq_true, decide_eq_true_eq,
      Bool.and_eq_false_iff, decide_eq_false_iff_not]
    omega

theorem mem_of_mem_jsTrim {c : Char} {l : Str} (h : c ∈ jsTrim l) : c ∈ l := by
  unfold jsTrim at h
  rw [List.mem_reverse] at h
  have h2 := (List.dropWhile_sublist jsIsSpace).subset h
  rw [List.mem_reverse] at h2
  exact (List.dropWhile_sublist jsIsSpace).subset h2

theorem mem_collapseRuns {p : Char → Bool} {r : Char} {b : Bool} {l : Str}
    {c : Char} (h : c ∈ collapseRuns p r b l) :
    c = r ∨ (c ∈ l ∧ p c = false) := by
  induction l generalizing b with
  | nil => simp [collapseRuns] at h
  | cons d cs ih =>
    by_cases hp : p d = true
    · cases b with
      | true =>
        simp only [collapseRuns, hp, if_true] at h
        rcases ih h with h1 | ⟨h2, h3⟩
        · exact Or.inl h1
        · exact Or.inr ⟨List.mem_cons_of_mem _ h2, h3⟩
      | false =>
        simp only [collapseRuns, hp, if_true] at h
        rcases List.mem_cons.mp h with rfl | h'
        · exact Or.inl rfl
        · rcases ih h' with h1 | ⟨h2, h3⟩
          · exact Or.inl h1
          · exact Or.inr ⟨List.mem_cons_of_mem _ h2, h3⟩
    · rw [Bool.not_eq_true] at hp
      simp only [collapseRuns, hp, Bool.false_eq_true, if_false] at h
      rcases List.mem_cons.mp h with rfl | h'
      · exact Or.inr ⟨List.mem_cons_self _ _, hp⟩
      · rcases ih h' with h1 | ⟨h2, h3⟩
        · exact Or.inl h1
        · exact Or.inr ⟨List.mem_cons_of_mem _ h2, h3⟩

theorem collapseRuns_true_head {p : Char → Bool} {r : Char} {l : Str}
    {c : Char} (h : (collapseRuns p r true l).head? = some c) :
    p c = false := by
  induction l with
  | nil => simp [collapseRuns] at h
  | cons d cs ih =>
    by_cases hp : p d = true
    · simp only [collapseRuns, hp, if_true] at h
      exact ih h
    · rw [Bool.not_eq_true] at hp
      simp only [collapseRuns, hp, Bool.false_eq_true, if_false,
        List.head?_cons, Option.some.injEq] at h
      rw [← h]
      exact hp

theorem noAdjacent_cons {p : Char → Bool} {c : Char} {l : Str}
    (h1 : ∀ e, l.head? = some e → (p c && p e) = false)
    (h2 : noAdjacent p l = true) :
    noAdjacent p (c :: l) = true := by
  cases l with
  | nil => rfl
  | cons e es =>
    have := h1 e rfl
    simp only [noAdjacent, this, Bool.not_false, Bool.true_and]
    exact h2

theorem noAdjacent_collapseRuns (p : Char → Bool) (r : Char) (b : Bool)
    (l : Str) : noAdjacent p (collapseRuns p r b l) = true := by
  induction l generalizing b with
  | nil => rfl
  | cons d cs ih =>
    by_cases hp : p d = true
    · cases b with
      | true =>
        simp only [collapseRuns, hp, if_true]
        exact ih true
      | false =>
        simp only [collapseRuns, hp, if_true]
        refine noAdjacent_cons (fun e he => ?_) (ih true)
        rw [collapseRuns_true_head he, Bool.and_false]
    · rw [Bool.not_eq_true] at hp
      simp only [collapseRuns, hp, Bool.false_eq_true, if_false]
      refine noAdjacent_cons (fun e _ => ?_) (ih false)
      rw [hp, Bool.false_and]

theorem slugChain_all_slugChar (l : Str) :
    (slugChain l).all isSlugChar = true := by
  rw [List.all_eq_true]
  intro c hc
  unfold slugChain at hc
  rcases mem_collapseRuns hc with rfl | ⟨hc2, hnh⟩
  · decide
  · rcases mem_collapseRuns hc2 with rfl | ⟨hc3, hns⟩
    · decide
    · rw [List.mem_filter] at hc3
      obtain ⟨hmem, hpred⟩ := hc3
      have hup : isAsciiUpper c = false := by
        rcases List.mem_map.mp (mem_of_mem_jsTrim hmem) with ⟨a, _, rfl⟩
        exact isAsciiUpper_jsToLower a
      simp only [Bool.or_eq_true] at hpred
      rcases hpred with (hw | hs) | hh
      · simp only [isWordChar, Bool.or_eq_true, hup] at hw
        rcases hw with ((hl | hu) | hd) | hu'
        · simp [isSlugChar, hl]
        · exact absurd hu (by simp)
        · simp [isSlugChar, hd]
        · simp [isSlugChar, hu']
      · rw [hns] at hs
        exact absurd hs (by simp)
      · simp only [isSlugChar, hh, Bool.or_true]

theorem noDoubleHyphen_slugChain (l : Str) :
    noDoubleHyphen (slugChain l) = true := by
  unfold noDoubleHyphen slugChain
  exact noAdjacent_collapseRuns _ _ _ _

/-! ## Identity lemmas used for idempotence -/

theorem map_id_of_mem {f : Char → Char} {l : Str}
    (h : ∀ c ∈ l, f c = c) : l.map f = l := by
  induction l with
  | nil => rfl
  | cons d cs ih =>
    simp only [List.map_cons, h d (List.mem_cons_self _ _),
      ih (fun c hc => h c (List.mem_cons_of_mem _ hc))]

theorem jsToLower_of_slugChar {c : Char} (h : isSlugChar c = true) :
    jsToLower c = c := by
  simp only [isSlugChar, Bool.or_eq_true] at h
  rcases h with ((hl | hd) | hu) | hh
  · simp only [isAsciiLower, Bool.and_eq_true, decide_eq_true_eq] at hl
    unfold jsToLower Char.toLower
    show (if c.toNat ≥ 65 ∧ c.toNat ≤ 90 then Char.ofNat (c.toNat + 32) else c) = c
    rw [if_neg (by omega)]
  · simp only [isDigitCh, Bool.and_eq_true, decide_eq_true_eq] at hd
    unfold jsToLower Char.toLower
    show (if c.toNat ≥ 65 ∧ c.toNat ≤ 90 then Char.ofNat (c.toNat + 32) else c) = c
    rw [if_neg (by omega)]
  · simp only [decide_eq_true_eq] at hu
    subst hu
    decide
  · simp only [decide_eq_true_eq] at hh
    subst hh
    decide

theorem jsIsSpace_of_slugChar {c : Char} (h : isSlugChar c = true) :
    jsIsSpace c = false := by
  simp only [isSlugChar, Bool.or_eq_true] at h
  rcases h with ((hl | hd) | hu) | hh
  · simp only [isAsciiLower, Bool.and_eq_true, decide_eq_true_eq] at hl
    simp only [jsIsSpace, Bool.or_eq_false_iff, decide_eq_false_iff_not]
    omega
  · simp only [isDigitCh, Bool.and_eq_true, decide_eq_true_eq] at hd
    simp only [jsIsSpace, Bool.or_eq_false_iff, decide_eq_false_iff_not]
    omega
  · simp only [decide_eq_true_eq] at hu
    subst hu
    decide
  · simp only [decide_eq_true_eq] at hh
    subst hh
    decide

theorem filterPred_of_slugChar {c : Char} (h : isSlugChar c = true) :
    (isWordChar c || jsIsSpace c || decide (c = '-')) = true := by
  simp only [isSlugChar, Bool.or_eq_true] at h
  rcases h with ((hl | hd) | hu) | hh
  · simp [isWordChar, hl]
  · simp [isWordChar, hd]
  · simp [isWordChar, hu]
  · simp [hh]

theorem dropWhile_id_of_mem {p : Char → Bool} {l : Str}
    (h : ∀ c ∈ l, p c = false) : l.dropWhile p = l := by
  cases l with
  | nil => rfl
  | cons d cs => simp [List.dropWhile_cons, h d (List.mem_cons_self _ _)]

theorem jsTrim_id_of_no_space {l : Str}
    (h : ∀ c ∈ l, jsIsSpace c = false) : jsTrim l = l := by
  unfold jsTrim
  rw [dropWhile_id_of_mem h]
  rw [dropWhile_id_of_mem (fun c hc => h c (List.mem_reverse.mp hc))]
  exact List.reverse_reverse l

theorem collapseRuns_id_of_none {p : Char → Bool} {r : Char} {l : Str}
    (h : ∀ c ∈ l, p c = false) : collapseRuns p r false l = l := by
  induction l with
  | nil => rfl
  | cons d cs ih =>
    simp only [collapseRuns, h d (List.mem_cons_self _ _),
      Bool.false_eq_true, if_false]
    rw [ih (fun c hc => h c (List.mem_cons_of_mem _ hc))]

theorem collapseRuns_true_eq_false {p : Char → Bool} {r : Char} {l : Str}
    (h : ∀ c, l.head? = some c → p c = false) :
    collapseRuns p r true l = collapseRuns p r false l := by
  cases l with
  | nil => rfl
  | cons d cs =>
    have := h d rfl
    simp only [collapseRuns, this, Bool.false_eq_true, if_false]

theorem collapseRuns_cons (p : Char → Bool) (r d : Char) (b : Bool)
    (cs : Str) :
    collapseRuns p r b (d :: cs) =
      if p d then
        (if b then collapseRuns p r true cs else r :: collapseRuns p r true cs)
      else d :: collapseRuns p r false cs := rfl

theorem collapseRuns_id_of_noAdjacent {p : Char → Bool} {r : Char}
    (hpr : ∀ c, p c = true → c = r) {l : Str}
    (h : noAdjacent p l = true) : collapseRuns p r false l = l := by
  induction l with
  | nil => rfl
  | cons d cs ih =>
    cases cs with
    | nil =>
      by_cases hp : p d = true
      · rw [collapseRuns_cons, if_pos hp, if_neg (by decide), hpr d hp]
        rfl
      · rw [Bool.not_eq_true] at hp
        rw [collapseRuns_cons, if_neg (by simp [hp])]
        rfl
    | cons e es =>
      simp only [noAdjacent, Bool.and_eq_true, Bool.not_eq_true'] at h
      obtain ⟨hpair, htail⟩ := h
      by_cases hp : p d = true
      · have hpe : p e = false := by
          rw [hp, Bool.true_and] at hpair
          exact hpair
        rw [collapseRuns_cons, if_pos hp, if_neg (by decide)]
        rw [collapseRuns_true_eq_false (fun c hc => by
          simp only [List.head?_cons, Option.some.injEq] at hc
          rw [← hc]; exact hpe)]
        rw [ih htail, hpr d hp]
      · rw [Bool.not_eq_true] at hp
        rw [collapseRuns_cons, if_neg (by simp [hp])]
        rw [ih htail]

theorem slugChain_fixed {l : Str}
    (hall : l.all isSlugChar = true)
    (hadj : noDoubleHyphen l = true) : slugChain l = l := by
  rw [List.all_eq_true] at hall
  unfold slugChain
  rw [map_id_of_mem (fun c hc => jsToLower_of_slugChar (hall c hc))]
  rw [jsTrim_id_of_no_space (fun c hc => jsIsSpace_of_slugChar (hall c hc))]
  rw [List.filter_eq_self.mpr (fun c hc => filterPred_of_slugChar (hall c hc))]
  rw [collapseRuns_id_of_none (fun c hc => jsIsSpace_of_slugChar (hall c hc))]
  exact collapseRuns_id_of_noAdjacent
    (fun c hc => by simpa using hc) hadj

/-- C5 (counterexample): the slug property as the specification states
it fails on the title `"_-a-"` — `generateSlug` keeps the underscore
(JS `\w` includes `_`) and the leading and trailing hyphens, returning
the input unchanged. -/
theorem generateSlug_spec_claim_cex :
    generateSlug (str "_-a-") = str "_-a-" ∧
    slugSpecClaim (str "_-a-") = false := by decide

/-- C5 (amended): for every input, `generateSlug` produces a string
over `[a-z0-9_-]` (lower-case, but underscores may remain, and a
hyphen may stand first or last) with no two consecutive hyphens, and
`generateSlug ''` is `''`. -/
theorem generateSlug_amended_charset :
    (∀ l : Str, (generateSlug l).all isSlugChar = true ∧
      noDoubleHyphen (generateSlug l) = true) ∧
    generateSlug (str "") = str "" := by
  refine ⟨fun l => ?_, by decide⟩
  unfold generateSlug
  split
  · exact ⟨rfl, rfl⟩
  · exact ⟨slugChain_all_slugChar l, noDoubleHyphen_slugChain l⟩

/-- C9: `generateSlug` is idempotent — applying it to its own output
returns that output unchanged. -/
theorem generateSlug_idempotent (l : Str) :
    generateSlug (generateSlug l) = generateSlug l := by
  by_cases hl : l = []
  · simp [generateSlug, hl]
  · have h1 : generateSlug l = slugChain l := by simp [generateSlug, hl]
    rw [h1]
    by_cases h2 : slugChain l = []
    · simp [generateSlug, h2]
    · have h3 : generateSlug (slugChain l) = slugChain (slugChain l) := by
        simp [generateSlug, h2]
      rw [h3]
      exact slugChain_fixed (slugChain_all_slugChar l) (noDoubleHyphen_slugChain l)

/-! ## Lemmas about the store operations -/

theorem findPost_id {store : List Post} {i : Str} {p : Post}
    (h : findPost store i = some p) : p.id = i := by
  induction store with
  | nil => simp [findPost] at h
  | cons d ds ih =>
    by_cases hd : d.id = i
    · simp only [findPost, hd, if_true, Option.some.injEq] at h
      rw [← h]
      exact hd
    · simp only [findPost, hd, if_false] at h
      exact ih h

theorem findPost_replacePost {store : List Post} {i : Str} {p : Post}
    (q : Post) (hq : q.id = i) (h : findPost store i = some p) :
    findPost (replacePost store i q) i = some q := by
  induction store with
  | nil => simp [findPost] at h
  | cons d ds ih =>
    by_cases hd : d.id = i
    · simp [findPost, replacePost, hd, hq]
    · simp only [findPost, replacePost, hd, if_false] at h ⊢
      exact ih h

theorem postCreate_ok {store : List Post} {freshId t c : Str}
    {cat : Option Str} {a : Str} {p : Post} {s' : List Post}
    (h : postCreate store freshId t c cat a = .ok (p, s')) :
    p.author = a ∧ p.status = str "draft" ∧ p.views = 0 ∧
    p.title = jsTrim t ∧ p.slug = slugChain p.title ∧ s' = store ++ [p] := by
  unfold postCreate at h
  by_cases hm : titleMsgs (jsTrim t) ++ contentMsgs c = []
  · have ht : jsTrim t ≠ [] := by
      intro h0
      rw [List.append_eq_nil] at hm
      have := hm.1
      rw [titleMsgs, if_pos h0] at this
      simp at this
    simp only [hm, ne_eq, not_true_eq_false, if_false, reduceIte,
      Except.ok.injEq, Prod.mk.injEq] at h
    obtain ⟨hp, hs⟩ := h
    subst hp
    refine ⟨rfl, rfl, rfl, rfl, ?_, hs.symm⟩
    simp [ht]
  · simp [hm] at h

/-! ## Claim theorems about the posts controller -/

/-- C1: whenever an update request on an existing post succeeds with
status 200 — whatever the payload, in particular whatever `author`
field it carries — the stored post's `author` afterwards equals its
value before the request (the controller deletes `req.body.author`
before applying the update). -/
theorem updatePost_author_immutable
    (store : List Post) (idStr user : Str) (b : UpdateBody) (p : Post)
    (hfind : findPost store idStr = some p)
    (h200 : (updatePost store idStr user b).fst.status = 200) :
    (findPost (updatePost store idStr user b).snd idStr).map Post.author
      = some p.author := by
  by_cases hv : isValidObjectId idStr = true
  · by_cases ha : p.author = user
    · cases hm : updateMsgs { b with author := none } with
      | nil =>
        have heq : updatePost store idStr user b =
            (.okPost 200 (applyUpdate p { b with author := none }),
             replacePost store idStr (applyUpdate p { b with author := none })) := by
          simp [updatePost, hv, hfind, ha, hm]
        rw [heq]
        have hpid : p.id = idStr := findPost_id hfind
        rw [findPost_replacePost _ (by simp [applyUpdate, hpid]) hfind]
        simp [applyUpdate]
      | cons m ms =>
        simp [updatePost, hv, hfind, ha, hm, HttpResult.status] at h200
    · simp [updatePost, hv, hfind, ha, HttpResult.status] at h200
  · rw [Bool.not_eq_true] at hv
    simp [updatePost, hv, HttpResult.status] at h200

/-- C1 witness: a one-post store, an update by the author whose
payload smuggles `author: "evil"` — the request succeeds and the
stored author is still `"u1"`. -/
theorem updatePost_author_immutable_witness :
    (findPost (updatePost [post0] oid (str "u1")
        { author := some (str "evil") }).snd oid).map Post.author
      = some (str "u1") := by
  have h := updatePost_author_immutable [post0] oid (str "u1")
    { author := some (str "evil") } post0 (by decide) (by decide)
  exact h

/-- C2: an update or delete request on an existing post by a caller
who is not its author fails with 403 and the dedicated message, and
leaves the store exactly as it was. -/
theorem update_delete_nonauthor_forbidden
    (store : List Post) (idStr user : Str) (b : UpdateBody) (p : Post)
    (hv : isValidObjectId idStr = true)
    (hfind : findPost store idStr = some p)
    (hne : p.author ≠ user) :
    updatePost store idStr user b =
      (.err 403 (str "Not authorized to update this post"), store) ∧
    deletePost store idStr user =
      (.err 403 (str "Not authorized to delete this post"), store) := by
  constructor
  · simp [updatePost, hv, hfind, hne]
  · simp [deletePost, hv, hfind, hne]

/-- C2 witness: caller `"u2"` on a post owned by `"u1"` — both
mutations are refused with 403 and the store is unchanged. -/
theorem update_delete_nonauthor_forbidden_witness :
    updatePost [post0] oid (str "u2") {} =
      (.err 403 (str "Not authorized to update this post"), [post0]) ∧
    deletePost [post0] oid (str "u2") =
      (.err 403 (str "Not authorized to delete this post"), [post0]) :=
  update_delete_nonauthor_forbidden [post0] oid (str "u2") {} post0
    (by decide) (by decide) (by decide)

/-- C3: a syntactically invalid identifier is rejected with 400 by
get/update/delete for every store (no lookup can influence the
result); a valid identifier matching no post yields 404; a valid
identifier matching a post makes get-by-id return that post with
status 200. -/
theorem postId_lookup_validation
    (store : List Post) (idStr user : Str) (b : UpdateBody) :
    (isValidObjectId idStr = false →
      getPostById store idStr = .err 400 (str "Invalid post ID format") ∧
      updatePost store idStr user b =
        (.err 400 (str "Invalid post ID format"), store) ∧
      deletePost store idStr user =
        (.err 400 (str "Invalid post ID format"), store)) ∧
    (isValidObjectId idStr = true → findPost store idStr = none →
      getPostById store idStr = .err 404 (str "Post not found") ∧
      updatePost store idStr user b = (.err 404 (str "Post not found"), store) ∧
      deletePost store idStr user = (.err 404 (str "Post not found"), store)) ∧
    (∀ p, isValidObjectId idStr = true → findPost store idStr = some p →
      getPostById store idStr = .okPost 200 p) := by
  refine ⟨fun hv => ?_, fun hv hn => ?_, fun p hv hf => ?_⟩
  · exact ⟨by simp [getPostById, hv], by simp [updatePost, hv],
      by simp [deletePost, hv]⟩
  · exact ⟨by simp [getPostById, hv, hn], by simp [updatePost, hv, hn],
      by simp [deletePost, hv, hn]⟩
  · simp [getPostById, hv, hf]

/-- C3 witness: the malformed string `'invalid-id-format'` → 400; a
well-formed unknown id on the empty store → 404; the same id on a
store holding that post → 200 with the post. -/
theorem postId_lookup_validation_witness :
    getPostById [] (str "invalid-id-format")
      = .err 400 (str "Invalid post ID format") ∧
    getPostById [] oid = .err 404 (str "Post not found") ∧
    getPostById [post0] oid = .okPost 200 post0 :=
  ⟨((postId_lookup_validation [] (str "invalid-id-format") (str "u") {}).1
      (by decide)).1,
   ((postId_lookup_validation [] oid (str "u") {}).2.1
      (by decide) (by decide)).1,
   (postId_lookup_validation [post0] oid (str "u") {}).2.2
      post0 (by decide) (by decide)⟩

/-- C4: an authenticated create request without a `title` is refused
with 400 "Title is required"; with a title but no `content`, with 400
"Content is required"; and any post it does create carries the
authenticated user's id as `author`, whatever the payload said. -/
theorem createPost_required_and_author
    (store : List Post) (user freshId : Str) (b : CreateBody) :
    (jsFalsyStr b.title = true →
      createPost store user freshId b = (.err 400 (str "Title is required"), store)) ∧
    (jsFalsyStr b.title = false → jsFalsyStr b.content = true →
      createPost store user freshId b = (.err 400 (str "Content is required"), store)) ∧
    (∀ p store', createPost store user freshId b = (.okPost 201 p, store') →
      p.author = user) := by
  refine ⟨fun h1 => ?_, fun h1 h2 => ?_, fun p store' h => ?_⟩
  · simp [createPost, h1]
  · simp [createPost, h1, h2]
  · by_cases h1 : jsFalsyStr b.title = true
    · simp [createPost, h1] at h
    · rw [Bool.not_eq_true] at h1
      by_cases h2 : jsFalsyStr b.content = true
      · simp [createPost, h1, h2] at h
      · rw [Bool.not_eq_true] at h2
        simp only [createPost, h1, Bool.false_eq_true, if_false, h2] at h
        cases hpc : postCreate store freshId (b.title.getD [])
            (b.content.getD []) b.category user with
        | ok pr =>
          rw [hpc] at h
          simp only [Prod.mk.injEq, HttpResult.okPost.injEq] at h
          obtain ⟨⟨_, hp⟩, _⟩ := h
          rw [← hp]
          exact (postCreate_ok (by rw [hpc])).1
        | error msgs =>
          rw [hpc] at h
          simp at h

/-- C4 witness: missing title → 400 "Title is required"; missing
content → 400 "Content is required"; a successful create by `"u1"`
stores `"u1"` as author. -/
theorem createPost_required_and_author_witness :
    createPost [] (str "u1") oid {} = (.err 400 (str "Title is required"), []) ∧
    createPost [] (str "u1") oid { title := some (str "T") }
      = (.err 400 (str "Content is required"), []) ∧
    createdT.author = str "u1" :=
  ⟨(createPost_required_and_author [] (str "u1") oid {}).1 (by decide),
   (createPost_required_and_author [] (str "u1") oid
      { title := some (str "T") }).2.1 (by decide) (by decide),
   (createPost_required_and_author [] (str "u1") oid
      { title := some (str "T"), content := some (str "C"),
        author := some (str "evil") }).2.2
      createdT [createdT] (by decide)⟩

/-- C10: the create handler reads only `title`, `content` and
`category` from the payload — two payloads agreeing on those three
fields produce identical outcomes — and every post it creates has
status `draft`, zero views, and its slug derived from its stored
title. -/
theorem createPost_mass_assignment_defaults
    (store : List Post) (user freshId : Str) (b b2 : CreateBody) :
    (b.title = b2.title → b.content = b2.content → b.category = b2.category →
      createPost store user freshId b = createPost store user freshId b2) ∧
    (∀ p store', createPost store user freshId b = (.okPost 201 p, store') →
      p.status = str "draft" ∧ p.views = 0 ∧ p.slug = slugChain p.title) := by
  constructor
  · intro h1 h2 h3
    unfold createPost
    rw [h1, h2, h3]
  · intro p store' h
    by_cases h1 : jsFalsyStr b.title = true
    · simp [createPost, h1] at h
    · rw [Bool.not_eq_true] at h1
      by_cases h2 : jsFalsyStr b.content = true
      · simp [createPost, h1, h2] at h
      · rw [Bool.not_eq_true] at h2
        simp only [createPost, h1, Bool.false_eq_true, if_false, h2] at h
        cases hpc : postCreate store freshId (b.title.getD [])
            (b.content.getD []) b.category user with
        | ok pr =>
          rw [hpc] at h
          simp only [Prod.mk.injEq, HttpResult.okPost.injEq] at h
          obtain ⟨⟨_, hp⟩, _⟩ := h
          rw [← hp]
          have hx : postCreate store freshId (b.title.getD [])
              (b.content.getD []) b.category user = .ok (pr.1, pr.2) := by
            rw [hpc, Prod.mk.eta]
          obtain ⟨_, hst, hvw, _, hsl, _⟩ := postCreate_ok hx
          exact ⟨hst, hvw, hsl⟩
        | error msgs =>
          rw [hpc] at h
          simp at h

/-- C10 witness: payloads differing only in `slug`, `status`, `views`
and `author` create the same post, and a created post has the default
status, zero views and the title-derived slug. -/
theorem createPost_mass_assignment_defaults_witness :
    createPost [] (str "u1") oid
      { title := some (str "T"), content := some (str "C") }
      = createPost [] (str "u1") oid
        { title := some (str "T"), content := some (str "C"),
          slug := some (str "hack"), status := some (str "published"),
          views := some 99, author := some (str "evil") } ∧
    (createdT.status = str "draft" ∧ createdT.views = 0 ∧
      createdT.slug = slugChain createdT.title) :=
  ⟨(createPost_mass_assignment_defaults [] (str "u1") oid
      { title := some (str "T"), content := some (str "C") }
      { title := some (str "T"), content := some (str "C"),
        slug := some (str "hack"), status := some (str "published"),
        views := some 99, author := some (str "evil") }).1 rfl rfl rfl,
   (createPost_mass_assignment_defaults [] (str "u1") oid
      { title := some (str "T"), content := some (str "C") }
      {}).2 createdT [createdT] (by decide)⟩

/-! ## Claim theorems about the error normalizer -/

/-- C6 (counterexample): an unclassified error carrying no status of
its own — `name: 'Error'`, `message: 'boom'` — is answered 500 with
its own message `"boom"`, not with the fixed string
"Internal Server Error" the specification states. -/
theorem errorHandler_fallback_cex :
    errorHandler { name := str "Error", message := str "boom" } false
      = { status := 500, success := false, error := str "boom",
          devDetails := false } ∧
    str "boom" ≠ str "Internal Server Error" := by decide

/-- C6 (amended): the normalizer maps a cast error to 404 "Resource
not found", a duplicate-key error to 400 "`<field>` already exists", a
validation error to 400 "Validation failed: `<messages>`", token
signature and expiry errors to 401 "Invalid token" / "Token expired",
and any error outside these classes with no status of its own to 500
with the error's own message; the body always carries
`success: false` and the mapped message. -/
theorem errorHandler_classification (e : JsError) (dev : Bool) :
    (errorHandler e dev).success = false ∧
    (e.name = str "CastError" → e.code ≠ some 11000 →
      errorHandler e dev =
        { status := 404, success := false, error := str "Resource not found",
          devDetails := dev }) ∧
    (e.code = some 11000 → e.name ≠ str "ValidationError" →
      e.name ≠ str "JsonWebTokenError" → e.name ≠ str "TokenExpiredError" →
      ∀ field rest, e.keyValueKeys = field :: rest →
      errorHandler e dev =
        { status := 400, success := false,
          error := field ++ str " already exists", devDetails := dev }) ∧
    (e.name = str "ValidationError" →
      errorHandler e dev =
        { status := 400, success := false,
          error := str "Validation failed: " ++ joinSep (str ", ") e.errorMessages,
          devDetails := dev }) ∧
    (e.name = str "JsonWebTokenError" →
      errorHandler e dev =
        { status := 401, success := false, error := str "Invalid token",
          devDetails := dev }) ∧
    (e.name = str "TokenExpiredError" →
      errorHandler e dev =
        { status := 401, success := false, error := str "Token expired",
          devDetails := dev }) ∧
    (e.name ≠ str "CastError" → e.code ≠ some 11000 →
      e.name ≠ str "ValidationError" → e.name ≠ str "JsonWebTokenError" →
      e.name ≠ str "TokenExpiredError" → e.statusCode = none →
      errorHandler e dev =
        { status := 500, success := false, error := e.message,
          devDetails := dev }) := by
  have nCV : str "CastError" ≠ str "ValidationError" := by decide
  have nCJ : str "CastError" ≠ str "JsonWebTokenError" := by decide
  have nCT : str "CastError" ≠ str "TokenExpiredError" := by decide
  have nVC : str "ValidationError" ≠ str "CastError" := by decide
  have nVJ : str "ValidationError" ≠ str "JsonWebTokenError" := by decide
  have nVT : str "ValidationError" ≠ str "TokenExpiredError" := by decide
  have nJC : str "JsonWebTokenError" ≠ str "CastError" := by decide
  have nJV : str "JsonWebTokenError" ≠ str "ValidationError" := by decide
  have nJT : str "JsonWebTokenError" ≠ str "TokenExpiredError" := by decide
  have nTC : str "TokenExpiredError" ≠ str "CastError" := by decide
  have nTV : str "TokenExpiredError" ≠ str "ValidationError" := by decide
  have nTJ : str "TokenExpiredError" ≠ str "JsonWebTokenError" := by decide
  refine ⟨rfl, fun h1 h2 => ?_, fun hc h1 h2 h3 field rest hkv => ?_,
    fun h1 => ?_, fun h1 => ?_, fun h1 => ?_,
    fun h1 h2 h3 h4 h5 h6 => ?_⟩
  · simp [errorHandler, h1, h2, nCV, nCJ, nCT]
  · simp [errorHandler, hc, h1, h2, h3, hkv]
  · simp [errorHandler, h1, nVC, nVJ, nVT]
  · simp [errorHandler, h1, nJC, nJV, nJT]
  · simp [errorHandler, h1, nTC, nTV, nTJ]
  · simp [errorHandler, h1, h2, h3, h4, h5, h6, jsOrNat]

/-- C6 witness: one concrete error of each class, mapped as the
amended claim states. -/
theorem errorHandler_classification_witness :
    errorHandler { name := str "CastError", message := str "Cast failed" } false
      = { status := 404, success := false, error := str "Resource not found",
          devDetails := false } ∧
    errorHandler
      { name := str "MongoServerError", message := str "E11000",
        code := some 11000, keyValueKeys := [str "slug"] } false
      = { status := 400, success := false,
          error := str "slug" ++ str " already exists", devDetails := false } ∧
    errorHandler
      { name := str "ValidationError", message := str "invalid",
        errorMessages := [str "Title is required"] } false
      = { status := 400, success := false,
          error := str "Validation failed: " ++
            joinSep (str ", ") [str "Title is required"],
          devDetails := false } ∧
    errorHandler
      { name := str "JsonWebTokenError", message := str "invalid signature" } false
      = { status := 401, success := false, error := str "Invalid token",
          devDetails := false } ∧
    errorHandler { name := str "TokenExpiredError", message := str "jwt expired" } false
      = { status := 401, success := false, error := str "Token expired",
          devDetails := false } :=
  ⟨(errorHandler_classification
      { name := str "CastError", message := str "Cast failed" } false).2.1
      rfl (by decide),
   (errorHandler_classification
      { name := str "MongoServerError", message := str "E11000",
        code := some 11000, keyValueKeys := [str "slug"] } false).2.2.1
      rfl (by decide) (by decide) (by decide) (str "slug") [] rfl,
   (errorHandler_classification
      { name := str "ValidationError", message := str "invalid",
        errorMessages := [str "Title is required"] } false).2.2.2.1 rfl,
   (errorHandler_classification
      { name := str "JsonWebTokenError", message := str "invalid signature" }
      false).2.2.2.2.1 rfl,
   (errorHandler_classification
      { name := str "TokenExpiredError", message := str "jwt expired" }
      false).2.2.2.2.2.1 rfl⟩

/-! ## Claim theorems about the authentication gate -/

/-- C7: a missing `Authorization` header, or one not using the
`Bearer ` scheme, is refused 401 "No token provided"; a present token
failing verification is refused 401 "Invalid or expired token"; a
verifying token's decoded payload is attached and control passes on. -/
theorem authGate_behavior (jv : Str → Except JwtVerifyError JwtPayload)
    (h : Option Str) :
    (h = none → verifyTokenGate jv h = .denied 401 (str "No token provided")) ∧
    (∀ s, h = some s → strHasStart (str "Bearer ") s = false →
      verifyTokenGate jv h = .denied 401 (str "No token provided")) ∧
    (∀ s tok e, h = some s → strHasStart (str "Bearer ") s = true →
      (splitOnSpace s)[1]? = some tok → jv tok = .error e →
      verifyTokenGate jv h = .denied 401 (str "Invalid or expired token")) ∧
    (∀ s tok p, h = some s → strHasStart (str "Bearer ") s = true →
      (splitOnSpace s)[1]? = some tok → jv tok = .ok p →
      verifyTokenGate jv h = .granted p) := by
  refine ⟨fun h0 => ?_, fun s h0 hb => ?_,
    fun s tok e h0 hb ht he => ?_, fun s tok p h0 hb ht hp => ?_⟩
  · subst h0
    rfl
  · subst h0
    simp [verifyTokenGate, hb]
  · subst h0
    simp [verifyTokenGate, hb, ht, he]
  · subst h0
    simp [verifyTokenGate, hb, ht, hp]

/-- C7 witness: the gate on a missing header, a wrong scheme, a
failing token and a verifying token of the concrete `jwt.verify`
behaviour `jvDemo`. -/
theorem authGate_behavior_witness :
    verifyTokenGate jvDemo none = .denied 401 (str "No token provided") ∧
    verifyTokenGate jvDemo (some (str "Token good"))
      = .denied 401 (str "No token provided") ∧
    verifyTokenGate jvDemo (some (str "Bearer expired"))
      = .denied 401 (str "Invalid or expired token") ∧
    verifyTokenGate jvDemo (some (str "Bearer good")) = .granted payload0 :=
  ⟨(authGate_behavior jvDemo none).1 rfl,
   (authGate_behavior jvDemo (some (str "Token good"))).2.1
      (str "Token good") rfl (by decide),
   (authGate_behavior jvDemo (some (str "Bearer expired"))).2.2.1
      (str "Bearer expired") (str "expired") .expired rfl (by decide)
      (by decide) (by rfl),
   (authGate_behavior jvDemo (some (str "Bearer good"))).2.2.2
      (str "Bearer good") (str "good") payload0 rfl (by decide)
      (by decide) (by rfl)⟩

/-! ## Claim theorems about the token utility -/

/-- C8 (counterexample): the token utility's verification failure is
not distinguishable by cause — an expired token and a tampered token
have distinct causes in `jwt.verify` yet `verifyToken` raises the very
same error for both. -/
theorem utilsVerifyToken_indistinguishable_cex :
    jvDemo (str "expired") = .error .expired ∧
    jvDemo (str "tampered") = .error .badSignature ∧
    JwtVerifyError.expired ≠ JwtVerifyError.badSignature ∧
    utilsVerifyToken jvDemo (str "expired")
      = utilsVerifyToken jvDemo (str "tampered") :=
  ⟨by rfl, by rfl, by decide, by rfl⟩

/-- C8 (amended): every verification failure of the token utility —
expiry, tamper or malformed input alike — raises the single error
"Invalid token". -/
theorem utilsVerifyToken_uniform_error
    (jv : Str → Except JwtVerifyError JwtPayload) (tok : Str)
    (e : JwtVerifyError) (h : jv tok = .error e) :
    utilsVerifyToken jv tok = .error (str "Invalid token") := by
  unfold utilsVerifyToken
  rw [h]

/-- C8 witness: the amended claim at the concrete expired token. -/
theorem utilsVerifyToken_uniform_error_witness :
    utilsVerifyToken jvDemo (str "expired") = .error (str "Invalid token") :=
  utilsVerifyToken_uniform_error jvDemo (str "expired") .expired (by rfl)

end MernBlog
